import Mathlib

/-!
# Verification development for `dagger/main.go` (cloud-native-ref bootstrap pipeline)

The Go module exposes four operations (`Clean`, `Plan`, `Bootstrap`,
`UpdateKustomization`) built on one helper, `bootstrapContainer`.

Encoding of Go results used throughout:

* a Go result `(*T, error)` is an `Except GoError T`: `return nil, err` is
  `.error err`, `return v, nil` is `.ok v`;
* a Go result `(string, error)` is the pair `String × Option GoError`, so
  `return "", err` is `("", some err)`;
* calls that leave the process (secret resolution, provisioning helpers, export,
  `Stdout`) take their outcome from an `Engine` and are recorded, in program
  order, in the `trace` of the returned `Run`.
-/

set_option linter.unusedVariables false
set_option linter.dupNamespace false
set_option autoImplicit false

namespace CloudNativeRef

/-! ## Strings and errors -/

/-- A Go `error`, carried as its message text. -/
abbrev GoError := String

/-- Pieces of a character list between the occurrences of `sep`; always at least one piece. -/
def strings.splitChars (sep : Char) : List Char → List (List Char)
  | [] => [[]]
  | c :: cs =>
    if c = sep then [] :: strings.splitChars sep cs
    else
      match strings.splitChars sep cs with
      | [] => [[c]]
      | p :: ps => (c :: p) :: ps

/-- Go `strings.Split(s, sep)` for a one-character separator: all substrings of `s`
between the separators (splitting at every occurrence). -/
def strings.Split (s : String) (sep : Char) : List String :=
  (strings.splitChars sep s.data).map String.mk

/-- The error built by `fmt.Errorf` at line 23 of `main.go` for the entry `e`. -/
def invalidEnvError (e : String) : GoError :=
  "invalid environment variable format, must be in the form <key>:<value>: " ++ e

/-! ## Dagger handles -/

/-- Modelled from the spec: the `dagger.Directory` handle type is not part of the
sources; a directory is a named reference or a sub-directory of another one
(`dir.Directory(path)`). -/
inductive Directory where
  | ref (name : String)
  | Directory (parent : Directory) (path : String)
  deriving DecidableEq

/-- Modelled from the spec: the `dagger.Secret` handle type is not part of the
sources; a secret handle is a name whose plaintext only the engine knows. -/
structure Secret where
  name : String
  deriving DecidableEq

/-- One recorded step of a container pipeline. -/
inductive Step where
  | exec (args : List String)
  | terminal
  deriving DecidableEq

/-- Modelled from the spec: the `dagger.Container` type is not part of the sources.
It is the spec's ExecutionEnvironment: an immutable value holding the toolset, the
key/value environment entries (one entry per key, the last write wins), the mounted
directories, the working directory and the recorded steps. -/
structure Container where
  packages : List String
  env : List (String × String)
  mounts : List (String × Directory)
  workdir : String
  steps : List Step
  deriving DecidableEq

/-- Writing `name = value` into an environment: an existing entry for `name` is
overwritten in place, otherwise the entry is appended. -/
def setEnv (name value : String) : List (String × String) → List (String × String)
  | [] => [(name, value)]
  | (k, v) :: rest =>
    if k = name then (name, value) :: rest else (k, v) :: setEnv name value rest

/-- Modelled from the spec: `dag.Apko().Wolfi(pkgs)`, a fresh environment equipped
with the given packages and no entry written yet. -/
def Apko.Wolfi (pkgs : List String) : Container :=
  { packages := pkgs, env := [], mounts := [], workdir := "", steps := [] }

/-- Modelled from the spec: `ctr.WithEnvVariable(name, value)`. -/
def Container.WithEnvVariable (ctr : Container) (name value : String) : Container :=
  { ctr with env := setEnv name value ctr.env }

/-- Modelled from the spec: `ctr.WithMountedDirectory(path, dir)`. -/
def Container.WithMountedDirectory (ctr : Container) (path : String) (dir : Directory) :
    Container :=
  { ctr with mounts := ctr.mounts ++ [(path, dir)] }

/-- Modelled from the spec: `ctr.WithWorkdir(path)`. -/
def Container.WithWorkdir (ctr : Container) (path : String) : Container :=
  { ctr with workdir := path }

/-- Modelled from the spec: `ctr.WithExec(args)`. -/
def Container.WithExec (ctr : Container) (args : List String) : Container :=
  { ctr with steps := ctr.steps ++ [Step.exec args] }

/-- Modelled from the spec: `ctr.Terminal()`. -/
def Container.Terminal (ctr : Container) : Container :=
  { ctr with steps := ctr.steps ++ [Step.terminal] }

/-! ## Calls that leave the process -/

/-- A call made to the engine or to a provisioning helper, with its arguments. -/
inductive Event where
  | getSecretValue (secret : Secret)
  | createNetwork (ctr : Container) (apply : Bool)
  | createKustomization (ctr : Container) (source : Directory) (branch path : String)
      (resources : List String)
  | Export (dir : Directory) (path : String)
  | Stdout (ctr : Container)
  deriving DecidableEq

/-- Modelled from the spec: the helpers `getSecretValue`, `createNetwork` and
`createKustomization` live in files that are not part of the sources, and `Export`
and `Stdout` are answered by the Dagger engine. Their outcomes are parameters:
`getSecretValue` is the Credential Resolver, `createNetwork` the Network Provisioner
(only its error result is kept, no caller reads the other one), `createKustomization`
the GitOps Kustomization Updater. -/
structure Engine where
  getSecretValue : Secret → String × Option GoError
  createNetwork : Container → Bool → Option GoError
  createKustomization :
    Container → Directory → String → String → List String → Except GoError Directory
  Export : Directory → String → Option GoError
  Stdout : Container → String × Option GoError

/-- What an operation returns, together with the calls it made, in order. -/
structure Run (α : Type) where
  result : α
  trace : List Event

/-- The container an event hands to the engine, if it hands one. -/
def Event.container : Event → Option Container
  | .getSecretValue _ => none
  | .createNetwork ctr _ => some ctr
  | .createKustomization ctr _ _ _ _ => some ctr
  | .Export _ _ => none
  | .Stdout ctr => some ctr

/-- Whether an event is a call of the Kustomization Updater. -/
def Event.isCreateKustomization : Event → Bool
  | .createKustomization _ _ _ _ _ => true
  | _ => false

/-! ## `bootstrapContainer` (lines 15-29) -/

/-- The packages installed by line 17. -/
def toolset : List String :=
  ["aws-cli-v2", "bash", "bind-tools", "curl", "git", "jq", "opentofu", "vault"]

/-- The loop of lines 20-26: each entry is split at every `:`; an entry that does
not give exactly two parts ends the function with an error, otherwise the two parts
are written as key and value. -/
def bootstrapContainer.loop : Container → List String → Except GoError Container
  | ctr, [] => .ok ctr
  | ctr, e :: rest =>
    match strings.Split e ':' with
    | [key, value] => bootstrapContainer.loop (ctr.WithEnvVariable key value) rest
    | _ => .error (invalidEnvError e)

/-- Go `bootstrapContainer(env)`. -/
def bootstrapContainer (env : List String) : Except GoError Container :=
  bootstrapContainer.loop (Apko.Wolfi toolset) env

/-! ## `Clean` (lines 32-50) -/

/-- The command run by `Clean`. -/
def cleanCmd : List String :=
  ["find", ".", "(", "-type", "d", "-name", "*.terraform", "-or", "-name",
   "*.terraform.lock.hcl", ")", "-exec", "rm", "-vrf", "\x7b\x7d", "+"]

/-- Go `Clean(ctx, source)`. -/
def Clean (eng : Engine) (source : Directory) : Run (String × Option GoError) :=
  match bootstrapContainer [] with
  | .error err => ⟨("", some err), []⟩
  | .ok ctr =>
    let final :=
      ((ctr.WithMountedDirectory "/cloud-native-ref" source).WithWorkdir
        "/cloud-native-ref").WithExec cleanCmd
    ⟨eng.Stdout final, [Event.Stdout final]⟩

/-! ## `Plan` (lines 53-117) -/

/-- The command of the last step of `Plan` and `Bootstrap`. -/
def echoCmd : List String := ["echo", "Bootstrap the EKS cluster"]

/-- Lines 108-116 of `Plan`: the optional mount of `authDir`, the call of
`createNetwork` (both of its results are dropped by the statement at line 112) and
the final `echo` step whose `Stdout` is returned. `done` holds the calls made so far. -/
def Plan.provision (eng : Engine) (authDir : Option Directory) (ctr : Container)
    (done : List Event) : Run (String × Option GoError) :=
  let ctr :=
    match authDir with
    | some d => ctr.WithMountedDirectory "/root/.aws/" d
    | none => ctr
  let _ := eng.createNetwork ctr false
  let final := ctr.WithExec echoCmd
  ⟨eng.Stdout final, done ++ [Event.createNetwork ctr false, Event.Stdout final]⟩

/-- Go `Plan(ctx, source, authDir, assumeRoleArn, profile, secretAccessKey,
accessKeyID, env)`. -/
def Plan (eng : Engine) (source : Directory) (authDir : Option Directory)
    (assumeRoleArn profile : String) (secretAccessKey accessKeyID : Option Secret)
    (env : List String) : Run (String × Option GoError) :=
  match bootstrapContainer env with
  | .error err => ⟨("", some err), []⟩
  | .ok ctr =>
    let ctr := ctr.WithMountedDirectory "/cloud-native-ref" source
    match accessKeyID, secretAccessKey with
    | some ak, some sk =>
      match eng.getSecretValue ak with
      | (_, some err) => ⟨("", some err), [Event.getSecretValue ak]⟩
      | (accessKeyIDValue, none) =>
        match eng.getSecretValue sk with
        | (_, some err) => ⟨("", some err), [Event.getSecretValue ak, Event.getSecretValue sk]⟩
        | (secretAccessKeyValue, none) =>
          Plan.provision eng authDir
            ((ctr.WithEnvVariable "AWS_ACCESS_KEY_ID" accessKeyIDValue).WithEnvVariable
              "AWS_SECRET_ACCESS_KEY" secretAccessKeyValue)
            [Event.getSecretValue ak, Event.getSecretValue sk]
    | _, _ => Plan.provision eng authDir ctr []

/-! ## `Bootstrap` (lines 120-283) -/

/-- Go `Bootstrap(ctx, source, authDir, assumeRoleArn, profile, secretAccessKey,
accessKeyID, region, apply, tsKey, tsTailnet, tsHostname, privateDomainName,
vaultAddr, vaultSkipVerify, toolingApps, securityApps, observabilityApps, branch,
env)`. Lines 215-266 are commented out in the source and have no counterpart here. -/
def Bootstrap (eng : Engine) (source : Directory) (authDir : Option Directory)
    (assumeRoleArn profile : String) (secretAccessKey accessKeyID : Option Secret)
    (region : String) (apply : Bool) (tsKey : Option Secret)
    (tsTailnet tsHostname privateDomainName vaultAddr vaultSkipVerify : String)
    (toolingApps securityApps observabilityApps : List String) (branch : String)
    (env : List String) : Run (String × Option GoError) :=
  match bootstrapContainer env with
  | .error err => ⟨("", some err), []⟩
  | .ok ctr =>
    let ctr := ctr.WithMountedDirectory "/cloud-native-ref" source
    let call := Event.createKustomization ctr source branch "security/mycluster-0" securityApps
    match eng.createKustomization ctr source branch "security/mycluster-0" securityApps with
    | .error err => ⟨("", some err), [call]⟩
    | .ok dir =>
      let sub := dir.Directory "security/mycluster-0"
      match eng.Export sub "/tmp/security/mycluster-0" with
      | some err => ⟨("", some err), [call, Event.Export sub "/tmp/security/mycluster-0"]⟩
      | none =>
        let final := ctr.Terminal.WithExec echoCmd
        ⟨eng.Stdout final,
          [call, Event.Export sub "/tmp/security/mycluster-0", Event.Stdout final]⟩

/-! ## `UpdateKustomization` (lines 285-321) -/

/-- Go `UpdateKustomization(ctx, source, branch, path, resources)`. -/
def UpdateKustomization (eng : Engine) (source : Directory) (branch path : String)
    (resources : List String) : Run (Except GoError Directory) :=
  match bootstrapContainer [] with
  | .error err => ⟨.error err, []⟩
  | .ok ctr =>
    let ctr := ctr.WithMountedDirectory "/cloud-native-ref" source
    let call := Event.createKustomization ctr source branch path resources
    match eng.createKustomization ctr source branch path resources with
    | .error err => ⟨.error err, [call]⟩
    | .ok dir => ⟨.ok dir, [call]⟩

/-! ## Vocabulary of the statements -/

/-- Number of `:` characters in an entry. -/
def colonCount (e : String) : Nat := e.data.count ':'

/-- The text of an entry before its first `:`. -/
def entryKey (e : String) : String := String.mk (e.data.takeWhile (fun c => c ≠ ':'))

/-- The text of an entry after its first `:`. -/
def entryValue (e : String) : String :=
  String.mk ((e.data.dropWhile (fun c => c ≠ ':')).drop 1)

/-- The value of the last entry of `env` whose key is `key`, if there is one. -/
def lastValue (env : List String) (key : String) : Option String :=
  (env.reverse.find? (fun e => entryKey e = key)).map entryValue

/-- The keys of an environment, in order. -/
def envKeys (env : List (String × String)) : List String := env.map Prod.fst

/-- Writing the entries of a well-formed list, one after the other. -/
def writeAll (ctr : Container) (env : List String) : Container :=
  env.foldl (fun c e => c.WithEnvVariable (entryKey e) (entryValue e)) ctr

/-- The toolbox container with the source tree mounted, as built at the start of
`UpdateKustomization` and, for an empty `env`, of `Plan` and `Bootstrap`. -/
def mountedToolbox (source : Directory) : Container :=
  (Apko.Wolfi toolset).WithMountedDirectory "/cloud-native-ref" source

/-- Whether some call of the Kustomization Updater in `tr` was given `resources`. -/
def updaterCalledWith (tr : List Event) (resources : List String) : Bool :=
  tr.any fun ev =>
    match ev with
    | .createKustomization _ _ _ _ r => decide (r = resources)
    | _ => false

/-- An engine for examples. The secret named `unresolvable` cannot be resolved, every
other secret resolves to `plain:` followed by its name; the other calls fail with the
given error when one is given; the updater returns the source tree itself. -/
def exampleEngine (unresolvable : String) (network kustomization export_ : Option GoError) :
    Engine where
  getSecretValue s :=
    if s.name = unresolvable then ("", some ("cannot resolve " ++ s.name))
    else ("plain:" ++ s.name, none)
  createNetwork _ _ := network
  createKustomization _ source _ _ _ :=
    match kustomization with
    | some err => .error err
    | none => .ok source
  Export _ _ := export_
  Stdout _ := ("Bootstrap the EKS cluster\n", none)

/-! ## Splitting -/

theorem splitChars_ne_nil (sep : Char) (cs : List Char) : strings.splitChars sep cs ≠ [] := by
  cases cs with
  | nil => simp [strings.splitChars]
  | cons c cs =>
    unfold strings.splitChars
    split
    · simp
    · split <;> simp

theorem splitChars_length (sep : Char) (cs : List Char) :
    (strings.splitChars sep cs).length = cs.count sep + 1 := by
  induction cs with
  | nil => simp [strings.splitChars]
  | cons c cs ih =>
    unfold strings.splitChars
    by_cases h : c = sep
    · subst h
      simp [ih]
    · have hne := splitChars_ne_nil sep cs
      rw [if_neg h]
      cases hs : strings.splitChars sep cs with
      | nil => exact absurd hs hne
      | cons p ps =>
        rw [hs] at ih
        simp only [List.length_cons] at ih ⊢
        rw [List.count_cons_of_ne (Ne.symm h)]
        exact ih

theorem splitChars_of_count_zero (sep : Char) (cs : List Char) (h : cs.count sep = 0) :
    strings.splitChars sep cs = [cs] := by
  induction cs with
  | nil => simp [strings.splitChars]
  | cons c cs ih =>
    have hc : c ≠ sep := by
      intro hc
      subst hc
      simp at h
    rw [List.count_cons_of_ne (Ne.symm hc)] at h
    unfold strings.splitChars
    rw [if_neg hc, ih h]

theorem splitChars_of_count_one (sep : Char) (cs : List Char) (h : cs.count sep = 1) :
    strings.splitChars sep cs =
      [cs.takeWhile (fun c => c ≠ sep), (cs.dropWhile (fun c => c ≠ sep)).drop 1] := by
  induction cs with
  | nil => simp at h
  | cons c cs ih =>
    unfold strings.splitChars
    by_cases hc : c = sep
    · subst hc
      rw [List.count_cons_self] at h
      have h0 : cs.count c = 0 := by omega
      simp [splitChars_of_count_zero c cs h0]
    · rw [List.count_cons_of_ne (Ne.symm hc)] at h
      rw [if_neg hc, ih h]
      simp [hc]

theorem split_length (e : String) : (strings.Split e ':').length = colonCount e + 1 := by
  simp [strings.Split, colonCount, splitChars_length]

theorem split_of_count_one (e : String) (h : colonCount e = 1) :
    strings.Split e ':' = [entryKey e, entryValue e] := by
  simp [strings.Split, entryKey, entryValue, splitChars_of_count_one ':' e.data h]

/-! ## The loop of `bootstrapContainer` -/

theorem loop_cons_of_count_one (ctr : Container) (e : String) (rest : List String)
    (h : colonCount e = 1) :
    bootstrapContainer.loop ctr (e :: rest) =
      bootstrapContainer.loop (ctr.WithEnvVariable (entryKey e) (entryValue e)) rest := by
  rw [bootstrapContainer.loop, split_of_count_one e h]

theorem loop_cons_of_count_ne_one (ctr : Container) (e : String) (rest : List String)
    (h : colonCount e ≠ 1) :
    bootstrapContainer.loop ctr (e :: rest) = .error (invalidEnvError e) := by
  have hl := split_length e
  unfold bootstrapContainer.loop
  split
  · rename_i key value hs
    rw [hs] at hl
    simp at hl
    omega
  · rfl

/-- The loop fails exactly on the first entry that does not hold exactly one `:`. -/
theorem loop_error_of_mem (env : List String) (ctr : Container)
    (h : ∃ e ∈ env, colonCount e ≠ 1) :
    ∃ e ∈ env, colonCount e ≠ 1 ∧ bootstrapContainer.loop ctr env = .error (invalidEnvError e) := by
  induction env generalizing ctr with
  | nil => simp at h
  | cons e rest ih =>
    by_cases he : colonCount e = 1
    · obtain ⟨x, hx, hxc⟩ := h
      have hx2 : x ∈ rest := by
        rcases List.mem_cons.mp hx with hxe | hxr
        · subst hxe
          exact absurd he hxc
        · exact hxr
      obtain ⟨y, hy, hyc, hyl⟩ := ih (ctr.WithEnvVariable (entryKey e) (entryValue e)) ⟨x, hx2, hxc⟩
      exact ⟨y, List.mem_cons_of_mem _ hy, hyc, by rw [loop_cons_of_count_one ctr e rest he]; exact hyl⟩
    · exact ⟨e, List.mem_cons_self _ _, he, loop_cons_of_count_ne_one ctr e rest he⟩

theorem loop_ok_of_forall (env : List String) (ctr : Container)
    (h : ∀ e ∈ env, colonCount e = 1) :
    bootstrapContainer.loop ctr env = .ok (writeAll ctr env) := by
  induction env generalizing ctr with
  | nil => rfl
  | cons e rest ih =>
    rw [loop_cons_of_count_one ctr e rest (h e (List.mem_cons_self _ _))]
    rw [ih _ (fun x hx => h x (List.mem_cons_of_mem _ hx))]
    rfl

theorem loop_ok_forall (env : List String) (ctr c : Container)
    (h : bootstrapContainer.loop ctr env = .ok c) : ∀ e ∈ env, colonCount e = 1 := by
  intro e he
  by_contra hne
  obtain ⟨y, _, _, hyl⟩ := loop_error_of_mem env ctr ⟨e, he, hne⟩
  rw [hyl] at h
  cases h

theorem loop_ok_eq (env : List String) (ctr c : Container)
    (h : bootstrapContainer.loop ctr env = .ok c) : c = writeAll ctr env := by
  rw [loop_ok_of_forall env ctr (loop_ok_forall env ctr c h)] at h
  cases h
  rfl

theorem loop_append (pre post : List String) (ctr c : Container)
    (h : bootstrapContainer.loop ctr pre = .ok c) :
    bootstrapContainer.loop ctr (pre ++ post) = bootstrapContainer.loop c post := by
  have hall := loop_ok_forall pre ctr c h
  have hc := loop_ok_eq pre ctr c h
  subst hc
  clear h
  induction pre generalizing ctr with
  | nil => rfl
  | cons e rest ih =>
    have he := hall e (List.mem_cons_self _ _)
    rw [List.cons_append, loop_cons_of_count_one ctr e _ he]
    exact ih _ (fun x hx => hall x (List.mem_cons_of_mem _ hx))

/-! ## Environments -/

theorem mem_envKeys_setEnv (n v k : String) (l : List (String × String)) :
    k ∈ envKeys (setEnv n v l) ↔ k = n ∨ k ∈ envKeys l := by
  induction l with
  | nil => simp [setEnv, envKeys]
  | cons kv rest ih =>
    obtain ⟨a, b⟩ := kv
    unfold setEnv
    by_cases h : a = n
    · subst h
      simp [envKeys]
    · rw [if_neg h]
      simp only [envKeys, List.map_cons, List.mem_cons] at ih ⊢
      rw [ih]
      tauto

theorem nodup_envKeys_setEnv (n v : String) (l : List (String × String))
    (h : (envKeys l).Nodup) : (envKeys (setEnv n v l)).Nodup := by
  induction l with
  | nil => simp [setEnv, envKeys]
  | cons kv rest ih =>
    obtain ⟨a, b⟩ := kv
    simp only [envKeys, List.map_cons, List.nodup_cons] at h
    unfold setEnv
    by_cases hk : a = n
    · subst hk
      rw [if_pos rfl]
      simp only [envKeys, List.map_cons, List.nodup_cons]
      exact h
    · rw [if_neg hk]
      simp only [envKeys, List.map_cons, List.nodup_cons]
      refine ⟨?_, ih h.2⟩
      intro hmem
      rcases (mem_envKeys_setEnv n v a rest).mp hmem with h1 | h1
      · exact hk h1
      · exact h.1 h1

theorem mem_setEnv (n v k w : String) (l : List (String × String))
    (h : (envKeys l).Nodup) :
    (k, w) ∈ setEnv n v l ↔ (k = n ∧ w = v) ∨ (k ≠ n ∧ (k, w) ∈ l) := by
  induction l with
  | nil => simp [setEnv]
  | cons kv rest ih =>
    obtain ⟨a, b⟩ := kv
    simp only [envKeys, List.map_cons, List.nodup_cons] at h
    unfold setEnv
    by_cases hk : a = n
    · subst hk
      rw [if_pos rfl]
      simp only [List.mem_cons, Prod.mk.injEq]
      constructor
      · rintro (⟨h1, h2⟩ | h3)
        · exact Or.inl ⟨h1, h2⟩
        · refine Or.inr ⟨?_, Or.inr h3⟩
          intro hka
          subst hka
          exact h.1 (List.mem_map.mpr ⟨(k, w), h3, rfl⟩)
      · rintro (⟨h1, h2⟩ | ⟨h1, h2 | h2⟩)
        · exact Or.inl ⟨h1, h2⟩
        · exact absurd h2.1 h1
        · exact Or.inr h2
    · rw [if_neg hk]
      simp only [List.mem_cons, Prod.mk.injEq]
      rw [ih h.2]
      constructor
      · rintro (⟨h1, h2⟩ | h3 | h3)
        · refine Or.inr ⟨?_, Or.inl ⟨h1, h2⟩⟩
          rw [h1]
          exact hk
        · exact Or.inl h3
        · exact Or.inr ⟨h3.1, Or.inr h3.2⟩
      · rintro (h3 | ⟨h1, h2 | h2⟩)
        · exact Or.inr (Or.inl h3)
        · exact Or.inl h2
        · exact Or.inr (Or.inr ⟨h1, h2⟩)

theorem lastValue_cons (e : String) (rest : List String) (k : String) :
    lastValue (e :: rest) k =
      match lastValue rest k with
      | some v => some v
      | none => if entryKey e = k then some (entryValue e) else none := by
  unfold lastValue
  rw [List.reverse_cons, List.find?_append]
  cases hf : List.find? (fun e => decide (entryKey e = k)) rest.reverse with
  | some x => simp
  | none =>
    by_cases hk : entryKey e = k
    · simp [hk]
    · simp [hk]

theorem writeAll_env (env : List String) (ctr : Container) (h : (envKeys ctr.env).Nodup) :
    (envKeys (writeAll ctr env).env).Nodup ∧
      ∀ k v, (k, v) ∈ (writeAll ctr env).env ↔
        (lastValue env k = some v ∨ (lastValue env k = none ∧ (k, v) ∈ ctr.env)) := by
  induction env generalizing ctr with
  | nil =>
    refine ⟨h, ?_⟩
    intro k v
    simp [writeAll, lastValue]
  | cons e rest ih =>
    have hnd : (envKeys (ctr.WithEnvVariable (entryKey e) (entryValue e)).env).Nodup :=
      nodup_envKeys_setEnv _ _ _ h
    obtain ⟨h1, h2⟩ := ih (ctr.WithEnvVariable (entryKey e) (entryValue e)) hnd
    have hw : writeAll ctr (e :: rest) =
        writeAll (ctr.WithEnvVariable (entryKey e) (entryValue e)) rest := rfl
    rw [hw]
    refine ⟨h1, ?_⟩
    intro k v
    rw [h2 k v, lastValue_cons]
    have hm : (k, v) ∈ (ctr.WithEnvVariable (entryKey e) (entryValue e)).env ↔
        (k = entryKey e ∧ v = entryValue e) ∨ (k ≠ entryKey e ∧ (k, v) ∈ ctr.env) :=
      mem_setEnv _ _ k v ctr.env h
    rw [hm]
    cases hl : lastValue rest k with
    | some x => simp
    | none =>
      by_cases hk : entryKey e = k
      · subst hk
        simp [eq_comm]
      · have hk2 : k ≠ entryKey e := fun h => hk h.symm
        simp [hk, hk2]

/-! ## Claims on `bootstrapContainer` -/

/-- C1. All-or-nothing rejection: whenever the list holds, at any position, an entry
that is not one key and one value around a single `:` (an entry without `:` is the
case of count 0), `bootstrapContainer` returns the format error of such an entry and
no container at all, so no entry of the batch is applied. -/
theorem bootstrapContainer_rejects_batch (env : List String)
    (h : ∃ e ∈ env, colonCount e ≠ 1) :
    (∃ e ∈ env, colonCount e ≠ 1 ∧ bootstrapContainer env = .error (invalidEnvError e)) ∧
      ∀ c, bootstrapContainer env ≠ .ok c := by
  obtain ⟨e, he, hc, hr⟩ := loop_error_of_mem env _ h
  refine ⟨⟨e, he, hc, hr⟩, ?_⟩
  intro c hok
  rw [bootstrapContainer] at hok
  rw [hr] at hok
  cases hok

/-- Witness for C1: a malformed entry placed after a well-formed one. -/
theorem bootstrapContainer_rejects_batch_witness :
    (∃ e ∈ ["A:1", "B"], colonCount e ≠ 1) ∧
      ((∃ e ∈ ["A:1", "B"], colonCount e ≠ 1 ∧
          bootstrapContainer ["A:1", "B"] = .error (invalidEnvError e)) ∧
        ∀ c, bootstrapContainer ["A:1", "B"] ≠ .ok c) :=
  ⟨⟨"B", by decide, by decide⟩,
    bootstrapContainer_rejects_batch ["A:1", "B"] ⟨"B", by decide, by decide⟩⟩

/-- C2, refuted as stated: the entry `URL:https://example.com` contains a `:` and
is nevertheless rejected, instead of being stored as key `URL` with value
`https://example.com`. -/
theorem bootstrapContainer_rejects_colon_in_value :
    ':' ∈ "URL:https://example.com".data ∧
      entryKey "URL:https://example.com" = "URL" ∧
      entryValue "URL:https://example.com" = "https://example.com" ∧
      bootstrapContainer ["URL:https://example.com"] =
        .error (invalidEnvError "URL:https://example.com") := by
  refine ⟨by decide, by decide, by decide, by rfl⟩

/-- C2, amended: entries are split at every `:` and must give exactly two parts. An
entry with exactly one `:` is accepted, its key being the text before the `:` and its
value the text after it; an entry with two or more `:` is rejected together with the
whole batch. -/
theorem bootstrapContainer_single_colon (pre : List String) (c : Container) (e : String)
    (hpre : bootstrapContainer pre = .ok c) :
    (colonCount e = 1 →
        bootstrapContainer (pre ++ [e]) =
          .ok (c.WithEnvVariable (entryKey e) (entryValue e))) ∧
      (2 ≤ colonCount e →
        ∀ post, bootstrapContainer (pre ++ e :: post) = .error (invalidEnvError e)) := by
  constructor
  · intro he
    rw [bootstrapContainer, loop_append pre [e] _ c hpre, loop_cons_of_count_one c e [] he]
    rfl
  · intro he post
    rw [bootstrapContainer, loop_append pre (e :: post) _ c hpre]
    exact loop_cons_of_count_ne_one c e post (by omega)

/-- Witness for the amended C2. -/
theorem bootstrapContainer_single_colon_witness :
    bootstrapContainer ["A:1"] =
        .ok ((Apko.Wolfi toolset).WithEnvVariable "A" "1") ∧
      bootstrapContainer (["A:1"] ++ ["B:2"]) =
        .ok (((Apko.Wolfi toolset).WithEnvVariable "A" "1").WithEnvVariable
            (entryKey "B:2") (entryValue "B:2")) ∧
      bootstrapContainer (["A:1"] ++ "U:h:p" :: ["C:3"]) = .error (invalidEnvError "U:h:p") :=
  ⟨by rfl,
    (bootstrapContainer_single_colon ["A:1"] _ "B:2" (by rfl)).1 (by decide),
    (bootstrapContainer_single_colon ["A:1"] _ "U:h:p" (by rfl)).2 (by decide) ["C:3"]⟩

/-- C7, refuted as stated: the list `[":v"]` is accepted and the resulting
environment has the empty key. -/
theorem bootstrapContainer_accepts_empty_key :
    ∃ c, bootstrapContainer [":v"] = .ok c ∧ ("", "v") ∈ c.env ∧ "" ∈ envKeys c.env :=
  ⟨_, by rfl, by decide, by decide⟩

/-- C7, amended: for every list that `bootstrapContainer` accepts, every key of the
resulting environment appears at most once, and the environment binds a key to a
value exactly when that value is the value of the last entry of the list carrying
the key (last write wins). Keys are not required to be non-empty. -/
theorem bootstrapContainer_last_write_wins (env : List String) (c : Container)
    (h : bootstrapContainer env = .ok c) :
    (envKeys c.env).Nodup ∧ ∀ k v, (k, v) ∈ c.env ↔ lastValue env k = some v := by
  have hc := loop_ok_eq env _ c h
  subst hc
  obtain ⟨h1, h2⟩ := writeAll_env env (Apko.Wolfi toolset)
    (by simp [Apko.Wolfi, envKeys])
  refine ⟨h1, ?_⟩
  intro k v
  rw [h2 k v]
  simp [Apko.Wolfi]

/-- Witness for the amended C7: a key written twice keeps its last value. -/
theorem bootstrapContainer_last_write_wins_witness :
    (envKeys (((Apko.Wolfi toolset).WithEnvVariable "A" "1").WithEnvVariable "A" "2").env).Nodup ∧
      ∀ k v, (k, v) ∈ (((Apko.Wolfi toolset).WithEnvVariable "A" "1").WithEnvVariable "A" "2").env ↔
          lastValue ["A:1", "A:2"] k = some v :=
  bootstrapContainer_last_write_wins ["A:1", "A:2"] _ (by rfl)

/-! ## Shared facts on the operations -/

theorem bootstrapContainer_nil : bootstrapContainer [] = .ok (Apko.Wolfi toolset) := rfl

theorem bootstrapContainer_nodup (env : List String) (c : Container)
    (h : bootstrapContainer env = .ok c) : (envKeys c.env).Nodup := by
  have hc := loop_ok_eq env _ c h
  subst hc
  exact (writeAll_env env (Apko.Wolfi toolset) (by simp [Apko.Wolfi, envKeys])).1

theorem provision_result (eng : Engine) (authDir : Option Directory) (ctr : Container)
    (done : List Event) :
    ∃ mid, mid.env = ctr.env ∧
      Plan.provision eng authDir ctr done =
        ⟨eng.Stdout (mid.WithExec echoCmd),
          done ++ [Event.createNetwork mid false, Event.Stdout (mid.WithExec echoCmd)]⟩ := by
  cases authDir with
  | none => exact ⟨ctr, rfl, rfl⟩
  | some d => exact ⟨ctr.WithMountedDirectory "/root/.aws/" d, rfl, rfl⟩

theorem Plan_without_pair (eng : Engine) (source : Directory) (authDir : Option Directory)
    (assumeRoleArn profile : String) (secretAccessKey accessKeyID : Option Secret)
    (env : List String) (c0 : Container) (henv : bootstrapContainer env = .ok c0)
    (h : accessKeyID = none ∨ secretAccessKey = none) :
    Plan eng source authDir assumeRoleArn profile secretAccessKey accessKeyID env =
      Plan.provision eng authDir (c0.WithMountedDirectory "/cloud-native-ref" source) [] := by
  unfold Plan
  rw [henv]
  rcases h with h | h
  · subst h
    rfl
  · subst h
    cases accessKeyID <;> rfl

/-! ## Claims on `Plan` -/

/-- C3. When exactly one of `accessKeyID` / `secretAccessKey` is present, `Plan`
behaves as if none were given: no secret is resolved, and when the environment list
is accepted the containers handed to the network stage and to the final step carry
exactly the environment built from the list (no `AWS_ACCESS_KEY_ID` or
`AWS_SECRET_ACCESS_KEY` write), the returned pair being the one of the final
`Stdout`, so the omission causes no error. -/
theorem Plan_lone_credential (eng : Engine) (source : Directory) (authDir : Option Directory)
    (assumeRoleArn profile : String) (secretAccessKey accessKeyID : Option Secret)
    (env : List String)
    (h : (accessKeyID = none ∧ secretAccessKey ≠ none) ∨
      (accessKeyID ≠ none ∧ secretAccessKey = none)) :
    Plan eng source authDir assumeRoleArn profile secretAccessKey accessKeyID env =
        Plan eng source authDir assumeRoleArn profile none none env ∧
      (∀ s, Event.getSecretValue s ∉
        (Plan eng source authDir assumeRoleArn profile secretAccessKey accessKeyID env).trace) ∧
      (∀ c0, bootstrapContainer env = .ok c0 →
        ∃ mid, mid.env = c0.env ∧ (mid.WithExec echoCmd).env = c0.env ∧
          Plan eng source authDir assumeRoleArn profile secretAccessKey accessKeyID env =
            ⟨eng.Stdout (mid.WithExec echoCmd),
              [Event.createNetwork mid false, Event.Stdout (mid.WithExec echoCmd)]⟩) := by
  have hone : accessKeyID = none ∨ secretAccessKey = none := by
    rcases h with h | h
    · exact Or.inl h.1
    · exact Or.inr h.2
  have hshape : ∀ c0, bootstrapContainer env = .ok c0 →
      ∃ mid, mid.env = c0.env ∧ (mid.WithExec echoCmd).env = c0.env ∧
        Plan eng source authDir assumeRoleArn profile secretAccessKey accessKeyID env =
          ⟨eng.Stdout (mid.WithExec echoCmd),
            [Event.createNetwork mid false, Event.Stdout (mid.WithExec echoCmd)]⟩ := by
    intro c0 henv
    obtain ⟨mid, hmid, hrun⟩ :=
      provision_result eng authDir (c0.WithMountedDirectory "/cloud-native-ref" source) []
    refine ⟨mid, hmid, hmid, ?_⟩
    rw [Plan_without_pair eng source authDir assumeRoleArn profile secretAccessKey accessKeyID
      env c0 henv hone, hrun]
    rfl
  refine ⟨?_, ?_, hshape⟩
  · cases henv : bootstrapContainer env with
    | error err =>
      unfold Plan
      rw [henv]
    | ok c0 =>
      rw [Plan_without_pair eng source authDir assumeRoleArn profile secretAccessKey accessKeyID
        env c0 henv hone,
        Plan_without_pair eng source authDir assumeRoleArn profile none none env c0 henv
          (Or.inl rfl)]
  · intro s
    cases henv : bootstrapContainer env with
    | error err =>
      unfold Plan
      rw [henv]
      simp
    | ok c0 =>
      obtain ⟨mid, _, _, hrun⟩ := hshape c0 henv
      rw [hrun]
      simp

/-- Witness for C3: only the access key id is given. -/
theorem Plan_lone_credential_witness :
    Plan (exampleEngine "" none none none) (Directory.ref "src") none "" "" none
        (some ⟨"key-id"⟩) ["A:1"] =
      Plan (exampleEngine "" none none none) (Directory.ref "src") none "" "" none none
        ["A:1"] ∧
    (Plan (exampleEngine "" none none none) (Directory.ref "src") none "" "" none
        (some ⟨"key-id"⟩) ["A:1"]).trace =
      [Event.createNetwork
          (((Apko.Wolfi toolset).WithEnvVariable "A" "1").WithMountedDirectory
            "/cloud-native-ref" (Directory.ref "src")) false,
        Event.Stdout
          ((((Apko.Wolfi toolset).WithEnvVariable "A" "1").WithMountedDirectory
            "/cloud-native-ref" (Directory.ref "src")).WithExec echoCmd)] :=
  ⟨(Plan_lone_credential (exampleEngine "" none none none) (Directory.ref "src") none "" ""
      none (some ⟨"key-id"⟩) ["A:1"] (Or.inr ⟨by simp, rfl⟩)).1, by rfl⟩

/-- C9. When both handles are present and both resolve (the environment list being
accepted), the calls made are the two resolutions, the network stage and the final
step, and the environment handed to the network stage and to the final step binds
`AWS_ACCESS_KEY_ID` and `AWS_SECRET_ACCESS_KEY` to the two resolved values and to
nothing else, whatever the list supplied for these two keys; every binding of any
other key is exactly the one built from the list. -/
theorem Plan_injects_credentials (eng : Engine) (source : Directory)
    (authDir : Option Directory) (assumeRoleArn profile : String)
    (secretAccessKey accessKeyID : Secret) (env : List String) (c0 : Container)
    (keyIdValue secretValue : String)
    (henv : bootstrapContainer env = .ok c0)
    (hkey : eng.getSecretValue accessKeyID = (keyIdValue, none))
    (hsecret : eng.getSecretValue secretAccessKey = (secretValue, none)) :
    ∃ mid,
      Plan eng source authDir assumeRoleArn profile (some secretAccessKey) (some accessKeyID)
          env =
        ⟨eng.Stdout (mid.WithExec echoCmd),
          [Event.getSecretValue accessKeyID, Event.getSecretValue secretAccessKey,
            Event.createNetwork mid false, Event.Stdout (mid.WithExec echoCmd)]⟩ ∧
      (mid.WithExec echoCmd).env = mid.env ∧
      (envKeys mid.env).Nodup ∧
      ∀ k v, (k, v) ∈ mid.env ↔
        (k = "AWS_ACCESS_KEY_ID" ∧ v = keyIdValue) ∨
        (k = "AWS_SECRET_ACCESS_KEY" ∧ v = secretValue) ∨
        (k ≠ "AWS_ACCESS_KEY_ID" ∧ k ≠ "AWS_SECRET_ACCESS_KEY" ∧ (k, v) ∈ c0.env) := by
  have hnd0 := bootstrapContainer_nodup env c0 henv
  have hnd1 : (envKeys (setEnv "AWS_ACCESS_KEY_ID" keyIdValue c0.env)).Nodup :=
    nodup_envKeys_setEnv _ _ _ hnd0
  obtain ⟨mid, hmid, hrun⟩ := provision_result eng authDir
    (((c0.WithMountedDirectory "/cloud-native-ref" source).WithEnvVariable "AWS_ACCESS_KEY_ID"
      keyIdValue).WithEnvVariable "AWS_SECRET_ACCESS_KEY" secretValue)
    [Event.getSecretValue accessKeyID, Event.getSecretValue secretAccessKey]
  have henvmid : mid.env =
      setEnv "AWS_SECRET_ACCESS_KEY" secretValue
        (setEnv "AWS_ACCESS_KEY_ID" keyIdValue c0.env) := by
    rw [hmid]
    rfl
  refine ⟨mid, ?_, rfl, ?_, ?_⟩
  · unfold Plan
    rw [henv]
    simp only [hkey, hsecret]
    rw [hrun]
    rfl
  · rw [henvmid]
    exact nodup_envKeys_setEnv _ _ _ hnd1
  · intro k v
    rw [henvmid, mem_setEnv _ _ k v _ hnd1, mem_setEnv _ _ k v _ hnd0]
    have hne : ("AWS_ACCESS_KEY_ID" : String) ≠ "AWS_SECRET_ACCESS_KEY" := by decide
    constructor
    · rintro (h1 | ⟨h1, h2 | h2⟩)
      · exact Or.inr (Or.inl h1)
      · exact Or.inl h2
      · exact Or.inr (Or.inr ⟨h2.1, h1, h2.2⟩)
    · rintro (h1 | h1 | h1)
      · refine Or.inr ⟨?_, Or.inl h1⟩
        rw [h1.1]
        exact hne
      · exact Or.inl h1
      · exact Or.inr ⟨h1.2.1, Or.inr ⟨h1.1, h1.2.2⟩⟩

/-- Witness for C9: the list already carries `AWS_ACCESS_KEY_ID`, which is overridden. -/
theorem Plan_injects_credentials_witness :
    ∃ mid,
      Plan (exampleEngine "" none none none) (Directory.ref "src") none "" ""
          (some ⟨"secret"⟩) (some ⟨"key-id"⟩) ["AWS_ACCESS_KEY_ID:old", "A:1"] =
        ⟨(exampleEngine "" none none none).Stdout (mid.WithExec echoCmd),
          [Event.getSecretValue ⟨"key-id"⟩, Event.getSecretValue ⟨"secret"⟩,
            Event.createNetwork mid false, Event.Stdout (mid.WithExec echoCmd)]⟩ ∧
      (mid.WithExec echoCmd).env = mid.env ∧
      (envKeys mid.env).Nodup ∧
      ∀ k v, (k, v) ∈ mid.env ↔
        (k = "AWS_ACCESS_KEY_ID" ∧ v = "plain:key-id") ∨
        (k = "AWS_SECRET_ACCESS_KEY" ∧ v = "plain:secret") ∨
        (k ≠ "AWS_ACCESS_KEY_ID" ∧ k ≠ "AWS_SECRET_ACCESS_KEY" ∧
          (k, v) ∈ (((Apko.Wolfi toolset).WithEnvVariable "AWS_ACCESS_KEY_ID"
            "old").WithEnvVariable "A" "1").env) :=
  Plan_injects_credentials (exampleEngine "" none none none) (Directory.ref "src") none "" ""
    ⟨"secret"⟩ ⟨"key-id"⟩ ["AWS_ACCESS_KEY_ID:old", "A:1"] _ "plain:key-id" "plain:secret"
    (by rfl) (by rfl) (by rfl)

/-- C4, the code at a failing input: with an engine whose network stage fails, `Plan`
still runs the final step and returns its output with no error. -/
theorem Plan_continues_after_network_failure :
    (exampleEngine "" (some "network provisioning failed") none none).createNetwork
        (mountedToolbox (Directory.ref "src")) false = some "network provisioning failed" ∧
      (Plan (exampleEngine "" (some "network provisioning failed") none none)
        (Directory.ref "src") none "" "" none none []).result =
          ("Bootstrap the EKS cluster\n", none) ∧
      (Plan (exampleEngine "" (some "network provisioning failed") none none)
        (Directory.ref "src") none "" "" none none []).trace =
          [Event.createNetwork (mountedToolbox (Directory.ref "src")) false,
            Event.Stdout ((mountedToolbox (Directory.ref "src")).WithExec echoCmd)] :=
  ⟨by rfl, by rfl, by rfl⟩

/-! ## Claims on `UpdateKustomization` -/

/-- C5. `UpdateKustomization` makes one call, to the Kustomization Updater, and
returns exactly what the updater returned: a failure of the updater (whatever its
cause, an absent target path included) comes back unchanged and without directory,
and a directory comes back only when the updater succeeded, and is then the
directory of the updater. -/
theorem UpdateKustomization_returns_updater_result (eng : Engine) (source : Directory)
    (branch path : String) (resources : List String) :
    (UpdateKustomization eng source branch path resources).trace =
        [Event.createKustomization (mountedToolbox source) source branch path resources] ∧
      (UpdateKustomization eng source branch path resources).result =
        eng.createKustomization (mountedToolbox source) source branch path resources ∧
      (∀ err, eng.createKustomization (mountedToolbox source) source branch path resources =
          .error err →
        (UpdateKustomization eng source branch path resources).result = .error err) ∧
      (∀ dir, (UpdateKustomization eng source branch path resources).result = .ok dir ↔
        eng.createKustomization (mountedToolbox source) source branch path resources =
          .ok dir) := by
  have hres : (UpdateKustomization eng source branch path resources).result =
      eng.createKustomization (mountedToolbox source) source branch path resources := by
    unfold UpdateKustomization
    rw [bootstrapContainer_nil]
    simp only [mountedToolbox]
    cases eng.createKustomization
      ((Apko.Wolfi toolset).WithMountedDirectory "/cloud-native-ref" source) source branch path
      resources <;> rfl
  refine ⟨?_, hres, ?_, ?_⟩
  · unfold UpdateKustomization
    rw [bootstrapContainer_nil]
    simp only [mountedToolbox]
    cases eng.createKustomization
      ((Apko.Wolfi toolset).WithMountedDirectory "/cloud-native-ref" source) source branch path
      resources <;> rfl
  · intro err h
    rw [hres, h]
  · intro dir
    rw [hres]

/-- Witness for C5: the updater fails on the target path and the failure comes back
unchanged, without directory. -/
theorem UpdateKustomization_returns_updater_result_witness :
    (UpdateKustomization (exampleEngine "" none (some "path not found") none)
        (Directory.ref "src") "main" "security/absent" ["sec"]).result =
      .error "path not found" :=
  (UpdateKustomization_returns_updater_result
    (exampleEngine "" none (some "path not found") none) (Directory.ref "src") "main"
    "security/absent" ["sec"]).2.2.1 "path not found" (by rfl)

/-! ## Claims on `Bootstrap` -/

theorem Bootstrap_trace_cases (eng : Engine) (source : Directory) (authDir : Option Directory)
    (assumeRoleArn profile : String) (secretAccessKey accessKeyID : Option Secret)
    (region : String) (apply : Bool) (tsKey : Option Secret)
    (tsTailnet tsHostname privateDomainName vaultAddr vaultSkipVerify : String)
    (toolingApps securityApps observabilityApps : List String) (branch : String)
    (env : List String) (c0 : Container) (henv : bootstrapContainer env = .ok c0) :
    ∃ tail,
      (Bootstrap eng source authDir assumeRoleArn profile secretAccessKey accessKeyID region
        apply tsKey tsTailnet tsHostname privateDomainName vaultAddr vaultSkipVerify toolingApps
        securityApps observabilityApps branch env).trace =
        Event.createKustomization (c0.WithMountedDirectory "/cloud-native-ref" source) source
          branch "security/mycluster-0" securityApps :: tail ∧
      (tail = [] ∨
        (∃ dir, tail = [Event.Export (Directory.Directory dir "security/mycluster-0")
          "/tmp/security/mycluster-0"]) ∨
        (∃ dir, tail = [Event.Export (Directory.Directory dir "security/mycluster-0")
            "/tmp/security/mycluster-0",
          Event.Stdout
            ((c0.WithMountedDirectory "/cloud-native-ref" source).Terminal.WithExec
              echoCmd)])) := by
  unfold Bootstrap
  rw [henv]
  simp only
  cases hk : eng.createKustomization (c0.WithMountedDirectory "/cloud-native-ref" source) source
      branch "security/mycluster-0" securityApps with
  | error err => exact ⟨[], rfl, Or.inl rfl⟩
  | ok dir =>
    simp only
    cases he : eng.Export (Directory.Directory dir "security/mycluster-0")
        "/tmp/security/mycluster-0" with
    | some err => exact ⟨_, rfl, Or.inr (Or.inl ⟨dir, rfl⟩)⟩
    | none => exact ⟨_, rfl, Or.inr (Or.inr ⟨dir, rfl⟩)⟩

/-- C6, refuted as stated: in a successful `Bootstrap` call given three different
overlay sets, the updater is called with the security set and with neither the
tooling set nor the observability set. -/
theorem Bootstrap_skips_tooling_and_observability :
    bootstrapContainer [] = .ok (Apko.Wolfi toolset) ∧
      updaterCalledWith
        (Bootstrap (exampleEngine "" none none none) (Directory.ref "src") none "" "" none none
          "eu-west-3" false none "" "" "" "" "true" ["tool"] ["sec"] ["obs"] "main" []).trace
        ["tool"] = false ∧
      updaterCalledWith
        (Bootstrap (exampleEngine "" none none none) (Directory.ref "src") none "" "" none none
          "eu-west-3" false none "" "" "" "" "true" ["tool"] ["sec"] ["obs"] "main" []).trace
        ["obs"] = false ∧
      updaterCalledWith
        (Bootstrap (exampleEngine "" none none none) (Directory.ref "src") none "" "" none none
          "eu-west-3" false none "" "" "" "" "true" ["tool"] ["sec"] ["obs"] "main" []).trace
        ["sec"] = true :=
  ⟨by rfl, by decide, by decide, by decide⟩

/-- C6, amended: every `Bootstrap` call that passes environment building calls the
Kustomization Updater exactly once, with `securityApps` and the path
`security/mycluster-0`; `toolingApps` and `observabilityApps` are not handed to it. -/
theorem Bootstrap_updates_security_only (eng : Engine) (source : Directory)
    (authDir : Option Directory) (assumeRoleArn profile : String)
    (secretAccessKey accessKeyID : Option Secret) (region : String) (apply : Bool)
    (tsKey : Option Secret)
    (tsTailnet tsHostname privateDomainName vaultAddr vaultSkipVerify : String)
    (toolingApps securityApps observabilityApps : List String) (branch : String)
    (env : List String) (c0 : Container) (henv : bootstrapContainer env = .ok c0) :
    (Bootstrap eng source authDir assumeRoleArn profile secretAccessKey accessKeyID region
        apply tsKey tsTailnet tsHostname privateDomainName vaultAddr vaultSkipVerify toolingApps
        securityApps observabilityApps branch env).trace.filter Event.isCreateKustomization =
      [Event.createKustomization (c0.WithMountedDirectory "/cloud-native-ref" source) source
        branch "security/mycluster-0" securityApps] := by
  obtain ⟨tail, htr, htail⟩ := Bootstrap_trace_cases eng source authDir assumeRoleArn profile
    secretAccessKey accessKeyID region apply tsKey tsTailnet tsHostname privateDomainName
    vaultAddr vaultSkipVerify toolingApps securityApps observabilityApps branch env c0 henv
  rw [htr]
  rcases htail with h | ⟨dir, h⟩ | ⟨dir, h⟩ <;> subst h <;>
    simp [List.filter, Event.isCreateKustomization]

/-- Witness for the amended C6. -/
theorem Bootstrap_updates_security_only_witness :
    (Bootstrap (exampleEngine "" none none none) (Directory.ref "src") none "" "" none none
        "eu-west-3" false none "" "" "" "" "true" ["tool"] ["sec"] ["obs"] "main"
        ["A:1"]).trace.filter Event.isCreateKustomization =
      [Event.createKustomization
        (((Apko.Wolfi toolset).WithEnvVariable "A" "1").WithMountedDirectory "/cloud-native-ref"
          (Directory.ref "src"))
        (Directory.ref "src") "main" "security/mycluster-0" ["sec"]] :=
  Bootstrap_updates_security_only (exampleEngine "" none none none) (Directory.ref "src") none
    "" "" none none "eu-west-3" false none "" "" "" "" "true" ["tool"] ["sec"] ["obs"] "main"
    ["A:1"] _ (by rfl)

/-- C10. `Bootstrap` reads only `source`, `env`, `securityApps` and `branch`: two
calls that agree on these return the same pair and make the same calls, whatever
their other arguments (`apply` included). When the list is accepted the calls are the
updater call for `security/mycluster-0`, then possibly the export of that
sub-directory to `/tmp/security/mycluster-0` and the final step, and every container
handed to them carries exactly the environment built from the list: no credential or
trust-store entry is added. -/
theorem Bootstrap_reads_four_inputs (eng : Engine) (source : Directory)
    (securityApps : List String) (branch : String) (env : List String)
    (authDir authDir' : Option Directory) (assumeRoleArn assumeRoleArn' : String)
    (profile profile' : String) (secretAccessKey secretAccessKey' : Option Secret)
    (accessKeyID accessKeyID' : Option Secret) (region region' : String)
    (apply apply' : Bool) (tsKey tsKey' : Option Secret) (tsTailnet tsTailnet' : String)
    (tsHostname tsHostname' : String) (privateDomainName privateDomainName' : String)
    (vaultAddr vaultAddr' : String) (vaultSkipVerify vaultSkipVerify' : String)
    (toolingApps toolingApps' : List String)
    (observabilityApps observabilityApps' : List String) :
    Bootstrap eng source authDir assumeRoleArn profile secretAccessKey accessKeyID region
        apply tsKey tsTailnet tsHostname privateDomainName vaultAddr vaultSkipVerify toolingApps
        securityApps observabilityApps branch env =
      Bootstrap eng source authDir' assumeRoleArn' profile' secretAccessKey' accessKeyID'
        region' apply' tsKey' tsTailnet' tsHostname' privateDomainName' vaultAddr'
        vaultSkipVerify' toolingApps' securityApps observabilityApps' branch env ∧
      ∀ c0, bootstrapContainer env = .ok c0 →
        (∃ tail,
          (Bootstrap eng source authDir assumeRoleArn profile secretAccessKey accessKeyID region
            apply tsKey tsTailnet tsHostname privateDomainName vaultAddr vaultSkipVerify
            toolingApps securityApps observabilityApps branch env).trace =
            Event.createKustomization (c0.WithMountedDirectory "/cloud-native-ref" source)
              source branch "security/mycluster-0" securityApps :: tail ∧
          (tail = [] ∨
            (∃ dir, tail = [Event.Export (Directory.Directory dir "security/mycluster-0")
              "/tmp/security/mycluster-0"]) ∨
            (∃ dir, tail = [Event.Export (Directory.Directory dir "security/mycluster-0")
                "/tmp/security/mycluster-0",
              Event.Stdout
                ((c0.WithMountedDirectory "/cloud-native-ref" source).Terminal.WithExec
                  echoCmd)]))) ∧
        ∀ ev ∈ (Bootstrap eng source authDir assumeRoleArn profile secretAccessKey accessKeyID
            region apply tsKey tsTailnet tsHostname privateDomainName vaultAddr vaultSkipVerify
            toolingApps securityApps observabilityApps branch env).trace,
          ∀ ctr, ev.container = some ctr → ctr.env = c0.env := by
  refine ⟨rfl, ?_⟩
  intro c0 henv
  have hc := Bootstrap_trace_cases eng source authDir assumeRoleArn profile
    secretAccessKey accessKeyID region apply tsKey tsTailnet tsHostname privateDomainName
    vaultAddr vaultSkipVerify toolingApps securityApps observabilityApps branch env c0 henv
  refine ⟨hc, ?_⟩
  obtain ⟨tail, htr, htail⟩ := hc
  intro ev hev ctr hctr
  rw [htr] at hev
  rcases htail with h | ⟨dir, h⟩ | ⟨dir, h⟩ <;> subst h <;>
    simp only [List.mem_cons, List.mem_singleton, List.not_mem_nil, or_false] at hev
  · subst hev
    simp only [Event.container, Option.some.injEq] at hctr
    subst hctr
    rfl
  · rcases hev with hev | hev <;> subst hev <;>
      simp only [Event.container, Option.some.injEq] at hctr
    · subst hctr
      rfl
    · exact absurd hctr (by simp)
  · rcases hev with hev | hev | hev <;> subst hev <;>
      simp only [Event.container, Option.some.injEq] at hctr
    · subst hctr
      rfl
    · exact absurd hctr (by simp)
    · subst hctr
      rfl

/-- Witness for C10: a plan-only call and an apply call with credentials, other
overlay sets and other tunnel and trust-store settings return the same run. -/
theorem Bootstrap_reads_four_inputs_witness :
    Bootstrap (exampleEngine "" none none none) (Directory.ref "src") none "" "" none none
        "eu-west-3" false none "" "" "" "" "true" [] ["sec"] ["obs"] "main" ["A:1"] =
      Bootstrap (exampleEngine "" none none none) (Directory.ref "src")
        (some (Directory.ref "aws")) "arn:aws:iam::1:role/r" "default" (some ⟨"secret"⟩)
        (some ⟨"key-id"⟩) "us-east-1" true (some ⟨"ts"⟩) "tailnet" "host" "priv.example.org"
        "https://vault.priv.example.org:8200" "false" ["tool"] ["sec"] [] "main" ["A:1"] :=
  (Bootstrap_reads_four_inputs (exampleEngine "" none none none) (Directory.ref "src") ["sec"]
    "main" ["A:1"] none (some (Directory.ref "aws")) "" "arn:aws:iam::1:role/r" "" "default"
    none (some ⟨"secret"⟩) none (some ⟨"key-id"⟩) "eu-west-3" "us-east-1" false true none
    (some ⟨"ts"⟩) "" "tailnet" "" "host" "" "priv.example.org" ""
    "https://vault.priv.example.org:8200" "true" "false" [] ["tool"] ["obs"] []).1

/-! ## Failure results of `Clean`, `Plan` and `Bootstrap` -/

/-- C8. No partial output on failure. `Clean` builds its environment from the empty
list, which cannot fail, and returns the pair of `Stdout`. For `Plan` and `Bootstrap`,
a failure of environment building, of the resolution of either secret (`Plan`), of
the kustomization update or of the export (`Bootstrap`) makes the operation return
the empty text together with exactly the error of that step. -/
theorem no_partial_output_on_failure (eng : Engine) (source : Directory)
    (authDir : Option Directory) (assumeRoleArn profile : String)
    (secretAccessKey accessKeyID : Option Secret) (region : String) (apply : Bool)
    (tsKey : Option Secret)
    (tsTailnet tsHostname privateDomainName vaultAddr vaultSkipVerify : String)
    (toolingApps securityApps observabilityApps : List String) (branch : String)
    (env : List String) :
    ((∀ err, bootstrapContainer [] ≠ .error err) ∧
      (Clean eng source).result =
        eng.Stdout (((mountedToolbox source).WithWorkdir "/cloud-native-ref").WithExec
          cleanCmd)) ∧
    (∀ err, bootstrapContainer env = .error err →
      (Plan eng source authDir assumeRoleArn profile secretAccessKey accessKeyID env).result =
          ("", some err) ∧
        (Bootstrap eng source authDir assumeRoleArn profile secretAccessKey accessKeyID region
          apply tsKey tsTailnet tsHostname privateDomainName vaultAddr vaultSkipVerify
          toolingApps securityApps observabilityApps branch env).result = ("", some err)) ∧
    (∀ c0 ak sk v err, bootstrapContainer env = .ok c0 → accessKeyID = some ak →
      secretAccessKey = some sk → eng.getSecretValue ak = (v, some err) →
      (Plan eng source authDir assumeRoleArn profile secretAccessKey accessKeyID env).result =
        ("", some err)) ∧
    (∀ c0 ak sk v w err, bootstrapContainer env = .ok c0 → accessKeyID = some ak →
      secretAccessKey = some sk → eng.getSecretValue ak = (v, none) →
      eng.getSecretValue sk = (w, some err) →
      (Plan eng source authDir assumeRoleArn profile secretAccessKey accessKeyID env).result =
        ("", some err)) ∧
    (∀ c0 err, bootstrapContainer env = .ok c0 →
      eng.createKustomization (c0.WithMountedDirectory "/cloud-native-ref" source) source
        branch "security/mycluster-0" securityApps = .error err →
      (Bootstrap eng source authDir assumeRoleArn profile secretAccessKey accessKeyID region
        apply tsKey tsTailnet tsHostname privateDomainName vaultAddr vaultSkipVerify
        toolingApps securityApps observabilityApps branch env).result = ("", some err)) ∧
    (∀ c0 dir err, bootstrapContainer env = .ok c0 →
      eng.createKustomization (c0.WithMountedDirectory "/cloud-native-ref" source) source
        branch "security/mycluster-0" securityApps = .ok dir →
      eng.Export (Directory.Directory dir "security/mycluster-0")
        "/tmp/security/mycluster-0" = some err →
      (Bootstrap eng source authDir assumeRoleArn profile secretAccessKey accessKeyID region
        apply tsKey tsTailnet tsHostname privateDomainName vaultAddr vaultSkipVerify
        toolingApps securityApps observabilityApps branch env).result = ("", some err)) := by
  refine ⟨⟨?_, rfl⟩, ?_, ?_, ?_, ?_, ?_⟩
  · intro err h
    rw [bootstrapContainer_nil] at h
    cases h
  · intro err h
    constructor
    · unfold Plan
      rw [h]
    · unfold Bootstrap
      rw [h]
  · intro c0 ak sk v err henv hak hsk hres
    subst hak hsk
    unfold Plan
    rw [henv]
    simp only [hres]
  · intro c0 ak sk v w err henv hak hsk hres1 hres2
    subst hak hsk
    unfold Plan
    rw [henv]
    simp only [hres1, hres2]
  · intro c0 err henv hk
    unfold Bootstrap
    rw [henv]
    simp only [hk]
  · intro c0 dir err henv hk he
    unfold Bootstrap
    rw [henv]
    simp only [hk, he]

/-- Witness for C8: one failing call for each step. -/
theorem no_partial_output_on_failure_witness :
    (Plan (exampleEngine "" none none none) (Directory.ref "src") none "" "" none none
        ["A:1", "B"]).result = ("", some (invalidEnvError "B")) ∧
    (Bootstrap (exampleEngine "" none none none) (Directory.ref "src") none "" "" none none
        "eu-west-3" false none "" "" "" "" "true" [] ["sec"] ["obs"] "main"
        ["A:1", "B"]).result = ("", some (invalidEnvError "B")) ∧
    (Plan (exampleEngine "key-id" none none none) (Directory.ref "src") none "" ""
        (some ⟨"secret"⟩) (some ⟨"key-id"⟩) []).result = ("", some "cannot resolve key-id") ∧
    (Plan (exampleEngine "secret" none none none) (Directory.ref "src") none "" ""
        (some ⟨"secret"⟩) (some ⟨"key-id"⟩) []).result = ("", some "cannot resolve secret") ∧
    (Bootstrap (exampleEngine "" none (some "path not found") none) (Directory.ref "src") none
        "" "" none none "eu-west-3" false none "" "" "" "" "true" [] ["sec"] ["obs"] "main"
        []).result = ("", some "path not found") ∧
    (Bootstrap (exampleEngine "" none none (some "export failed")) (Directory.ref "src") none
        "" "" none none "eu-west-3" false none "" "" "" "" "true" [] ["sec"] ["obs"] "main"
        []).result = ("", some "export failed") :=
  ⟨((no_partial_output_on_failure (exampleEngine "" none none none) (Directory.ref "src") none
      "" "" none none "eu-west-3" false none "" "" "" "" "true" [] ["sec"] ["obs"] "main"
      ["A:1", "B"]).2.1 _ (by rfl)).1,
    ((no_partial_output_on_failure (exampleEngine "" none none none) (Directory.ref "src") none
      "" "" none none "eu-west-3" false none "" "" "" "" "true" [] ["sec"] ["obs"] "main"
      ["A:1", "B"]).2.1 _ (by rfl)).2,
    (no_partial_output_on_failure (exampleEngine "key-id" none none none) (Directory.ref "src")
      none "" "" (some ⟨"secret"⟩) (some ⟨"key-id"⟩) "eu-west-3" false none "" "" "" "" "true"
      [] ["sec"] ["obs"] "main" []).2.2.1 _ ⟨"key-id"⟩ ⟨"secret"⟩ "" _ (by rfl) rfl rfl (by rfl),
    (no_partial_output_on_failure (exampleEngine "secret" none none none) (Directory.ref "src")
      none "" "" (some ⟨"secret"⟩) (some ⟨"key-id"⟩) "eu-west-3" false none "" "" "" "" "true"
      [] ["sec"] ["obs"] "main" []).2.2.2.1 _ ⟨"key-id"⟩ ⟨"secret"⟩ "plain:key-id" "" _
      (by rfl) rfl rfl (by rfl) (by rfl),
    (no_partial_output_on_failure (exampleEngine "" none (some "path not found") none)
      (Directory.ref "src") none "" "" none none "eu-west-3" false none "" "" "" "" "true" []
      ["sec"] ["obs"] "main" []).2.2.2.2.1 _ _ (by rfl) (by rfl),
    (no_partial_output_on_failure (exampleEngine "" none none (some "export failed"))
      (Directory.ref "src") none "" "" none none "eu-west-3" false none "" "" "" "" "true" []
      ["sec"] ["obs"] "main" []).2.2.2.2.2 _ (Directory.ref "src") _ (by rfl) (by rfl)
      (by rfl)⟩

end CloudNativeRef
